import Mathlib

/-!
Shallow embedding of the captcha-solver repository
(src/__init__.py, src/captcha_solver.py, src/two_captcha.py,
src/anti_captcha.py, src/death_by_captcha.py).

Python values are modelled as follows: `Optional[str]` becomes
`Option String` with Python truthiness made explicit (`None` and the
empty string are falsy); an operation that may raise becomes
`Except String α` carrying the exception message; floats that only ever
undergo exact division by 100 become `Rat`; wall time is idealised so
that each poll call is instantaneous and `time.sleep(interval)` advances
the clock by `interval` seconds.
-/

deriving instance DecidableEq for Except

/-- Python `str(x)` on an `Optional[str]`: `str(None) = "None"`. -/
def pyStr : Option String → String
  | none => "None"
  | some s => s

/-- Python truthiness of an `Optional[str]`: `None` and `""` are falsy. -/
def truthy : Option String → Bool
  | none => false
  | some s => !(s == "")

/-!
## FallbackOrchestrator: `CaptchaSolver.solve_captcha` (src/__init__.py lines 34-55)

Each configured adapter, applied to the fixed solve request, is modelled
by its outcome `Except String String` (`.ok solution` for a normal
return, `.error msg` for a raised exception with message `msg`).  The
function returns the Python return value / raised message together with
the number of adapters actually invoked, so that early exit from the
fallback chain is observable.
-/

/-- The `for solver in self.solvers` loop of `solve_captcha`, carrying
the running `last_error` (initially Python `None`). -/
def solveAux : List (Except String String) → Option String → Except String String × Nat
  | [], last_error =>
    (.error ("All services failed to solve captcha. Last error: " ++ pyStr last_error), 0)
  | solver :: rest, _ =>
    match solver with
    | .ok s => (.ok s, 1)
    | .error e =>
      let r := solveAux rest (some e)
      (r.1, r.2 + 1)

/-- `CaptchaSolver.solve_captcha`: try each adapter in registry order,
return the first success, raise an aggregate error after the last
failure.  Also returns how many adapters were invoked. -/
def CaptchaSolver.solve_captcha (solvers : List (Except String String)) :
    Except String String × Nat :=
  solveAux solvers none

/-!
## Construction: `CaptchaSolver.__init__` (src/__init__.py lines 10-32)

A config entry is a `(service, api_key)` pair.  Recognised service names
(after lowercasing) are `2captcha`, `anti-captcha`, `deathbycaptcha`;
anything else is skipped.  `DeathByCaptcha.__init__` performs
`self.username, self.password = api_key.split(":")`, which raises
`ValueError` unless the split yields exactly two parts.
-/

/-- Python `str.lower()` (the service names involved are ASCII, where
lowering is per-character). -/
def pyLower (s : String) : String :=
  ⟨s.data.map Char.toLower⟩

/-- Character-level worker for Python `str.split(sep)` with a
single-character separator. -/
def pySplitAux (sep : Char) : List Char → List Char → List (List Char)
  | [], acc => [acc.reverse]
  | c :: cs, acc =>
    if c == sep then acc.reverse :: pySplitAux sep cs []
    else pySplitAux sep cs (c :: acc)

/-- Python `s.split(sep)` for a single-character separator: splits on
every occurrence, keeping empty pieces (`"".split(":") == [""]`). -/
def pySplit (s : String) (sep : Char) : List String :=
  (pySplitAux sep s.data []).map fun l => ⟨l⟩

/-- A constructed adapter, holding the credential state its
`__init__` stores. -/
inductive ServiceSolver where
  | twoCaptcha (api_key : String)
  | antiCaptcha (api_key : String)
  | deathByCaptcha (username password : String)
deriving DecidableEq, Repr

/-- `self.username, self.password = api_key.split(":")` in
`DeathByCaptcha.__init__`: tuple unpacking of the split result. -/
def splitCredential (api_key : String) : Except String (String × String) :=
  match pySplit api_key ':' with
  | [u, p] => .ok (u, p)
  | [_] => .error "ValueError: not enough values to unpack (expected 2, got 1)"
  | _ => .error "ValueError: too many values to unpack (expected 2)"

/-- The construction loop of `CaptchaSolver.__init__`: builds the
adapter list in config order, skipping unrecognised service names; a
constructor exception (malformed deathbycaptcha credential) propagates
immediately. -/
def mkSolvers : List (String × String) → Except String (List ServiceSolver)
  | [] => .ok []
  | config :: rest =>
    let service := pyLower config.1
    let api_key := config.2
    if service == "2captcha" then
      (mkSolvers rest).map (fun l => ServiceSolver.twoCaptcha api_key :: l)
    else if service == "anti-captcha" then
      (mkSolvers rest).map (fun l => ServiceSolver.antiCaptcha api_key :: l)
    else if service == "deathbycaptcha" then
      match splitCredential api_key with
      | .ok (u, p) => (mkSolvers rest).map (fun l => ServiceSolver.deathByCaptcha u p :: l)
      | .error e => .error e
    else
      mkSolvers rest

/-- `CaptchaSolver.__init__`: run the construction loop, then raise
`ValueError("No valid services configured")` if no adapter was built. -/
def CaptchaSolver.init (service_configs : List (String × String)) :
    Except String (List ServiceSolver) :=
  match mkSolvers service_configs with
  | .error e => .error e
  | .ok solvers => if solvers.isEmpty then .error "No valid services configured" else .ok solvers

/-- Whether a config entry names one of the three recognised services
(mirrors the three `elif` tests of `__init__`). -/
def configRecognized (config : String × String) : Bool :=
  pyLower config.1 == "2captcha" || pyLower config.1 == "anti-captcha" ||
    pyLower config.1 == "deathbycaptcha"

/-- A config entry whose construction cannot raise: either it is not a
deathbycaptcha entry, or its credential splits into exactly two parts. -/
def credentialWellFormed (config : String × String) : Bool :=
  !(pyLower config.1 == "deathbycaptcha") ||
    (match splitCredential config.2 with
     | .ok _ => true
     | .error _ => false)

/-!
## PollLoop: `CaptchaSolverBase._wait_for_result` (src/captcha_solver.py lines 40-53)

The poll closure `get_result_func` is modelled as a function from the
poll-attempt index to `Except String (Option String)`: `.error e` for a
raised exception, `.ok r` for a normal return of the `Optional[str]`
value `r`.  Time is idealised: each poll call is instantaneous and each
`time.sleep(self.polling_interval)` advances the clock by
`polling_interval`, so the poll at attempt index `k` happens at elapsed
time `k * interval`.  The loop runs `while time.time() - start_time <
self.timeout`.  Structural recursion is on a fuel argument; the wrapper
supplies `timeout + 1` units, which is enough whenever `interval ≥ 1`
because attempt `timeout` already fails the `while` guard.
-/

/-- Outcome of `_wait_for_result`: the returned value or raised message,
the total elapsed wall time at that moment, and how many times the poll
closure was called. -/
structure WaitOutcome where
  result : Except String String
  elapsed : Nat
  calls : Nat
deriving Repr

/-- The `while` loop of `_wait_for_result`, at poll-attempt index `k`
(elapsed time `k * interval`). -/
def waitLoop (timeout interval : Nat) (poll : Nat → Except String (Option String)) :
    Nat → Nat → WaitOutcome
  | k, 0 => ⟨.error "Timeout waiting for captcha solution", k * interval, k⟩
  | k, fuel + 1 =>
    if k * interval < timeout then
      match poll k with
      | .error e => ⟨.error ("Error while waiting for result: " ++ e), k * interval, k + 1⟩
      | .ok r =>
        if truthy r then ⟨.ok (r.getD ""), k * interval, k + 1⟩
        else waitLoop timeout interval poll (k + 1) fuel
    else ⟨.error "Timeout waiting for captcha solution", k * interval, k⟩

/-- `CaptchaSolverBase._wait_for_result`, started at elapsed time 0. -/
def waitForResult (timeout interval : Nat)
    (poll : Nat → Except String (Option String)) : WaitOutcome :=
  waitLoop timeout interval poll 0 (timeout + 1)

/-!
## Image handlers: `_solve_image_captcha` of each adapter
(src/two_captcha.py lines 34-57, src/anti_captcha.py lines 48-66,
src/death_by_captcha.py lines 35-58)

All three begin with the same `if image_path: ... elif image_url: ...
else: raise` selection (Python truthiness on the optional arguments).
`imageSource` is that selection; `imageSubmitRequests` is the list of
submissions the handler sends to its backend, empty when the selection
raises (the `raise` precedes every `requests.post` to the service).
-/

/-- Which image source a handler ends up using. -/
inductive ImageSource where
  | fromFile (path : String)
  | fromUrl (url : String)
deriving DecidableEq, Repr

/-- `TwoCaptcha._solve_image_captcha` source selection:
`files = {file: open(image_path)}` / `method=base64, body=image_url` /
raise. -/
def TwoCaptcha.imageSource (image_path image_url : Option String) :
    Except String ImageSource :=
  if truthy image_path then .ok (.fromFile (image_path.getD ""))
  else if truthy image_url then .ok (.fromUrl (image_url.getD ""))
  else .error "Either image_path or image_url must be provided"

/-- `AntiCaptcha._solve_image_captcha` source selection: read the file
into the task body / put `imageUrl` into the task / raise. -/
def AntiCaptcha.imageSource (image_path image_url : Option String) :
    Except String ImageSource :=
  if truthy image_path then .ok (.fromFile (image_path.getD ""))
  else if truthy image_url then .ok (.fromUrl (image_url.getD ""))
  else .error "Either image_path or image_url must be provided"

/-- `DeathByCaptcha._solve_image_captcha` source selection: base64 the
file / fetch and base64 the URL / raise. -/
def DeathByCaptcha.imageSource (image_path image_url : Option String) :
    Except String ImageSource :=
  if truthy image_path then .ok (.fromFile (image_path.getD ""))
  else if truthy image_url then .ok (.fromUrl (image_url.getD ""))
  else .error "Either image_path or image_url must be provided"

/-- Submissions `TwoCaptcha._solve_image_captcha` sends to the backend:
exactly one `requests.post` after a successful source selection, none
when the selection raises. -/
def TwoCaptcha.imageSubmitRequests (image_path image_url : Option String) :
    List ImageSource :=
  match TwoCaptcha.imageSource image_path image_url with
  | .ok s => [s]
  | .error _ => []

/-- Submissions `AntiCaptcha._solve_image_captcha` sends to the backend
(via `_create_task`). -/
def AntiCaptcha.imageSubmitRequests (image_path image_url : Option String) :
    List ImageSource :=
  match AntiCaptcha.imageSource image_path image_url with
  | .ok s => [s]
  | .error _ => []

/-- Submissions `DeathByCaptcha._solve_image_captcha` sends to the
backend. -/
def DeathByCaptcha.imageSubmitRequests (image_path image_url : Option String) :
    List ImageSource :=
  match DeathByCaptcha.imageSource image_path image_url with
  | .ok s => [s]
  | .error _ => []

/-!
## BalanceAggregator: `CaptchaSolver.get_balances` (src/__init__.py lines 57-70)

Each adapter is modelled by its class name (`solver.__class__.__name__`)
and the outcome of its `get_balance()` call.  The Python dict is an
insertion-ordered association list where assigning to an existing key
overwrites it in place.
-/

/-- A value of the balances dict: a numeric balance or the
`"Error: ..."` string stored on failure. -/
inductive BalanceEntry where
  | val (amount : Rat)
  | err (msg : String)
deriving DecidableEq, Repr

/-- One configured adapter as `get_balances` sees it: its
`__class__.__name__` and the outcome of `get_balance()`. -/
structure BalanceSolver where
  className : String
  balance : Except String Rat
deriving DecidableEq, Repr

/-- The dict entry produced for one adapter: the numeric balance, or the
error marker built in the `except` branch. -/
def balanceEntry (r : Except String Rat) : BalanceEntry :=
  match r with
  | .ok b => .val b
  | .error e => .err ("Error: " ++ e)

/-- Python `d[key] = v` on an insertion-ordered dict. -/
def dictInsert (d : List (String × BalanceEntry)) (key : String) (v : BalanceEntry) :
    List (String × BalanceEntry) :=
  if d.any (fun p => p.1 == key) then
    d.map (fun p => if p.1 == key then (key, v) else p)
  else
    d ++ [(key, v)]

/-- `CaptchaSolver.get_balances`: query every adapter, storing each
outcome under the adapter's class name. -/
def get_balances (solvers : List BalanceSolver) : List (String × BalanceEntry) :=
  solvers.foldl (fun d s => dictInsert d s.className (balanceEntry s.balance)) []

/-!
## Solution extraction from a ready poll response
(src/anti_captcha.py lines 106-128, src/death_by_captcha.py lines
117-143, src/two_captcha.py lines 116-136)

Backend JSON objects are modelled structurally; a field that may be
absent is an `Option`.  Each `get_result` closure returns
`Except String (Option String)` exactly as in the PollLoop model:
`.ok none` is the not-ready sentinel, `.ok (some s)` a normal return of
`s`, `.error e` a raised exception.
-/

/-- The `solution` object of an AntiCaptcha `getTaskResult` response. -/
structure AntiCaptchaSolution where
  text : Option String
  gRecaptchaResponse : Option String
  token : Option String
deriving DecidableEq, Repr

/-- AntiCaptcha `get_result`, ready branch: `if text in solution ...
elif gRecaptchaResponse ... elif token ... else raise`. -/
def AntiCaptcha.extractSolution (solution : AntiCaptchaSolution) : Except String String :=
  match solution.text with
  | some t => .ok t
  | none =>
    match solution.gRecaptchaResponse with
    | some g => .ok g
    | none =>
      match solution.token with
      | some tk => .ok tk
      | none => .error "Unknown solution format"

/-- A DeathByCaptcha poll response body. -/
structure DBCResult where
  is_correct : Bool
  text : Option String
  token : Option String
  status : Option Int
  error : Option String
deriving DecidableEq, Repr

/-- `DeathByCaptcha._get_task_result`'s inner `get_result`. -/
def DeathByCaptcha.getResult (r : DBCResult) : Except String (Option String) :=
  if r.is_correct then
    match r.text with
    | some t => .ok (some t)
    | none =>
      match r.token with
      | some tk => .ok (some tk)
      | none => .error "Unknown solution format"
  else if !(r.status == some 0) then
    .error ("Error getting result: " ++ pyStr r.error)
  else
    .ok none

/-- A TwoCaptcha `res.php` poll response body. -/
structure TwoCaptchaRes where
  status : Option Int
  request : Option String
deriving DecidableEq, Repr

/-- `TwoCaptcha._get_task_result`'s inner `get_result`: on
`status == 1` it returns `data.get(request)` as-is (possibly `None`);
on `request == CAPCHA_NOT_READY` it returns `None`; otherwise it
raises. -/
def TwoCaptcha.getResult (d : TwoCaptchaRes) : Except String (Option String) :=
  if d.status == some 1 then .ok d.request
  else if d.request == some "CAPCHA_NOT_READY" then .ok none
  else .error ("Error getting result: " ++ pyStr d.request)

/-!
## `DeathByCaptcha.get_balance` (src/death_by_captcha.py lines 145-156)

The backend reports the balance in US cents; the adapter divides by 100.
-/

/-- `DeathByCaptcha.get_balance`, applied to the parsed response: the
optional numeric `balance` field and the optional `error` field. -/
def DeathByCaptcha.get_balance (balance : Option Rat) (error : Option String) :
    Except String Rat :=
  match balance with
  | some b => .ok (b / 100)
  | none => .error ("Failed to get balance: " ++ pyStr error)

/-!
## Theorems
-/

theorem solveAux_first_success (errs : List String) (s : String)
    (rest : List (Except String String)) (acc : Option String) :
    solveAux (errs.map Except.error ++ Except.ok s :: rest) acc = (.ok s, errs.length + 1) := by
  induction errs generalizing acc with
  | nil => simp [solveAux]
  | cons e errs ih => simp [solveAux, ih]

theorem solveAux_all_fail (front : List String) (lastMsg : String) (acc : Option String) :
    solveAux (front.map Except.error ++ [Except.error lastMsg]) acc =
      (.error ("All services failed to solve captcha. Last error: " ++ lastMsg),
        front.length + 1) := by
  induction front generalizing acc with
  | nil => simp [solveAux, pyStr]
  | cons e front ih => simp [solveAux, ih]

/-- Claim C1: for a registry whose first `errs.length` adapters raise,
followed by an adapter that returns solution `s` (and arbitrary further
adapters), `CaptchaSolver.solve_captcha` returns `s` and invokes exactly
the first `errs.length + 1` adapters — no adapter after the succeeding
one is invoked. -/
theorem solve_captcha_first_success (errs : List String) (s : String)
    (rest : List (Except String String)) :
    CaptchaSolver.solve_captcha (errs.map Except.error ++ Except.ok s :: rest) =
      (.ok s, errs.length + 1) :=
  solveAux_first_success errs s rest none

/-- Claim C2: when every adapter raises (messages `front ++ [lastMsg]`),
`CaptchaSolver.solve_captcha` invokes all of them (no exception escapes
mid-chain) and raises an aggregate error whose message extends the
last-tried adapter's error message `lastMsg`. -/
theorem solve_captcha_all_fail (front : List String) (lastMsg : String) :
    CaptchaSolver.solve_captcha ((front ++ [lastMsg]).map Except.error) =
      (.error ("All services failed to solve captcha. Last error: " ++ lastMsg),
        front.length + 1) := by
  have h : (front ++ [lastMsg]).map (Except.error : String → Except String String) =
      front.map Except.error ++ [Except.error lastMsg] := by simp
  rw [CaptchaSolver.solve_captcha, h, solveAux_all_fail]

theorem waitLoop_never_ready (timeout interval : Nat)
    (poll : Nat → Except String (Option String))
    (hpoll : ∀ k, ∃ r, poll k = .ok r ∧ truthy r = false) :
    ∀ fuel k, timeout ≤ (k + fuel) * interval →
      ∃ m, k ≤ m ∧
        waitLoop timeout interval poll k fuel =
          ⟨.error "Timeout waiting for captcha solution", m * interval, m⟩ ∧
        timeout ≤ m * interval ∧ (m * interval < timeout + interval ∨ m = k) := by
  intro fuel
  induction fuel with
  | zero =>
    intro k hk
    exact ⟨k, le_refl k, rfl, by simpa using hk, Or.inr rfl⟩
  | succ fuel ih =>
    intro k hk
    by_cases hg : k * interval < timeout
    · obtain ⟨r, hr, htr⟩ := hpoll k
      rw [show k + (fuel + 1) = k + 1 + fuel from by omega] at hk
      obtain ⟨m, hkm, heq, hto, hd⟩ := ih (k + 1) hk
      refine ⟨m, by omega, ?_, hto, ?_⟩
      · simp [waitLoop, hg, hr, htr, heq]
      · rcases hd with h | h
        · exact Or.inl h
        · subst h
          left
          rw [Nat.succ_mul]
          exact Nat.add_lt_add_right hg interval
    · exact ⟨k, le_refl k, by simp [waitLoop, hg], Nat.le_of_not_lt hg, Or.inr rfl⟩

/-- Claim C3: for a poll closure that never raises and never returns a
truthy (ready) value, `_wait_for_result` with `timeout ≥ 0` and
`polling_interval ≥ 1` terminates by raising the timeout error, and the
total waited wall time lies in `[timeout, timeout + interval)`. -/
theorem waitForResult_timeout (timeout interval : Nat)
    (poll : Nat → Except String (Option String)) (hI : 1 ≤ interval)
    (hpoll : ∀ k, ∃ r, poll k = .ok r ∧ truthy r = false) :
    (waitForResult timeout interval poll).result =
        .error "Timeout waiting for captcha solution" ∧
      timeout ≤ (waitForResult timeout interval poll).elapsed ∧
      (waitForResult timeout interval poll).elapsed < timeout + interval := by
  have hfuel : timeout ≤ (0 + (timeout + 1)) * interval := by
    have h1 : timeout + 1 ≤ (timeout + 1) * interval := by
      simpa using Nat.mul_le_mul_left (timeout + 1) hI
    simpa using le_trans (Nat.le_succ timeout) h1
  obtain ⟨m, _, heq, hto, hd⟩ :=
    waitLoop_never_ready timeout interval poll hpoll (timeout + 1) 0 hfuel
  rw [waitForResult, heq]
  refine ⟨rfl, hto, ?_⟩
  rcases hd with h | h
  · exact h
  · subst h
    simp only [Nat.zero_mul] at hto ⊢
    omega

/-- Witness for C3: a poll closure returning the Python falsy `None`
forever, with the default timeout 120 and interval 5. -/
theorem waitForResult_timeout_witness :
    (1 : Nat) ≤ 5 ∧
      ((waitForResult 120 5 (fun _ => .ok none)).result =
          .error "Timeout waiting for captcha solution" ∧
        120 ≤ (waitForResult 120 5 (fun _ => .ok none)).elapsed ∧
        (waitForResult 120 5 (fun _ => .ok none)).elapsed < 120 + 5) :=
  ⟨by decide, waitForResult_timeout 120 5 _ (by decide) (fun _ => ⟨none, rfl, rfl⟩)⟩

/-- Claim C4: if the first poll call raises with message `e`,
`_wait_for_result` raises immediately a `CaptchaSolverError` carrying
`e` in its message: the elapsed time is 0 (no interval sleep happens
after the error) and the poll closure was called exactly once (the
erroring poll is never retried). -/
theorem waitForResult_error_immediate (timeout interval : Nat)
    (poll : Nat → Except String (Option String)) (e : String)
    (hT : 0 < timeout) (hp : poll 0 = .error e) :
    waitForResult timeout interval poll =
      ⟨.error ("Error while waiting for result: " ++ e), 0, 1⟩ := by
  simp [waitForResult, waitLoop, hp, hT]

/-- Witness for C4: a poll closure raising "boom" on every call, with
the default timeout 120 and interval 5. -/
theorem waitForResult_error_immediate_witness :
    (0 : Nat) < 120 ∧
      waitForResult 120 5 (fun _ => .error "boom") =
        ⟨.error ("Error while waiting for result: " ++ "boom"), 0, 1⟩ :=
  ⟨by decide, waitForResult_error_immediate 120 5 _ "boom" (by decide) rfl⟩

theorem waitLoop_ok_ne_empty (timeout interval : Nat)
    (poll : Nat → Except String (Option String)) :
    ∀ fuel k s, (waitLoop timeout interval poll k fuel).result = .ok s → s ≠ "" := by
  intro fuel
  induction fuel with
  | zero => intro k s h; simp [waitLoop] at h
  | succ fuel ih =>
    intro k s h
    by_cases hg : k * interval < timeout
    · cases hr : poll k with
      | error e => simp [waitLoop, hg, hr] at h
      | ok r =>
        by_cases ht : truthy r = true
        · cases r with
          | none => simp [truthy] at ht
          | some t =>
            simp [waitLoop, hg, hr, ht] at h
            simp [truthy] at ht
            exact h ▸ ht
        · simp only [waitLoop, hg, if_true, hr, ht, if_false, Bool.not_eq_true] at h
          exact ih (k + 1) s (by simpa [hg, hr, ht] using h)
    · simp [waitLoop, hg] at h

/-- Claim C10: `_wait_for_result` never returns a falsy value: any
normally returned solution is a nonempty string, and a poll closure that
always returns the empty string is treated exactly like the `None`
not-ready sentinel, being retried each interval until the loop raises
the timeout error. -/
theorem waitForResult_never_falsy :
    (∀ (timeout interval : Nat) (poll : Nat → Except String (Option String)) (s : String),
        (waitForResult timeout interval poll).result = .ok s → s ≠ "") ∧
      ∀ (timeout interval : Nat) (poll : Nat → Except String (Option String)),
        1 ≤ interval → (∀ k, poll k = .ok (some "")) →
          (waitForResult timeout interval poll).result =
            .error "Timeout waiting for captcha solution" := by
  constructor
  · intro timeout interval poll s h
    exact waitLoop_ok_ne_empty timeout interval poll (timeout + 1) 0 s h
  · intro timeout interval poll hI hp
    have hpoll : ∀ k, ∃ r, poll k = .ok r ∧ truthy r = false :=
      fun k => ⟨some "", hp k, by decide⟩
    have hfuel : timeout ≤ (0 + (timeout + 1)) * interval := by
      have h1 : timeout + 1 ≤ (timeout + 1) * interval := by
        simpa using Nat.mul_le_mul_left (timeout + 1) hI
      simpa using le_trans (Nat.le_succ timeout) h1
    obtain ⟨m, _, heq, _, _⟩ :=
      waitLoop_never_ready timeout interval poll hpoll (timeout + 1) 0 hfuel
    rw [waitForResult, heq]

/-- Witness for C10: a poll returning "token" is returned as-is and is
nonempty; a poll forever returning `""` ends in the timeout error. -/
theorem waitForResult_never_falsy_witness :
    ("token" : String) ≠ "" ∧
      (waitForResult 3 1 (fun _ => .ok (some ""))).result =
        .error "Timeout waiting for captcha solution" :=
  ⟨waitForResult_never_falsy.1 120 5 (fun _ => .ok (some "token")) "token" rfl,
   waitForResult_never_falsy.2 3 1 (fun _ => .ok (some "")) (by decide) (fun _ => rfl)⟩

/-- Claim C5: in every adapter's image handler, when both a (truthy)
file path and an image URL are supplied the file path is used and the
URL is ignored; when neither is supplied the handler raises the
missing-image-source error, and sends no submission to the backend. -/
theorem imageSource_spec (p u : String) (hp : p ≠ "") :
    (TwoCaptcha.imageSource (some p) (some u) = .ok (.fromFile p) ∧
      AntiCaptcha.imageSource (some p) (some u) = .ok (.fromFile p) ∧
      DeathByCaptcha.imageSource (some p) (some u) = .ok (.fromFile p)) ∧
    (TwoCaptcha.imageSource none none =
        .error "Either image_path or image_url must be provided" ∧
      AntiCaptcha.imageSource none none =
        .error "Either image_path or image_url must be provided" ∧
      DeathByCaptcha.imageSource none none =
        .error "Either image_path or image_url must be provided") ∧
    (TwoCaptcha.imageSubmitRequests none none = [] ∧
      AntiCaptcha.imageSubmitRequests none none = [] ∧
      DeathByCaptcha.imageSubmitRequests none none = []) := by
  refine ⟨⟨?_, ?_, ?_⟩, ⟨rfl, rfl, rfl⟩, rfl, rfl, rfl⟩ <;>
    simp [TwoCaptcha.imageSource, AntiCaptcha.imageSource, DeathByCaptcha.imageSource,
      truthy, hp]

/-- Witness for C5: both sources supplied, the file path wins in all
three adapters. -/
theorem imageSource_spec_witness :
    ("captcha.png" : String) ≠ "" ∧
      TwoCaptcha.imageSource (some "captcha.png") (some "img-url") =
        .ok (.fromFile "captcha.png") ∧
      AntiCaptcha.imageSource (some "captcha.png") (some "img-url") =
        .ok (.fromFile "captcha.png") ∧
      DeathByCaptcha.imageSource (some "captcha.png") (some "img-url") =
        .ok (.fromFile "captcha.png") :=
  ⟨by decide, (imageSource_spec "captcha.png" "img-url" (by decide)).1⟩

/-- Claim C9: `DeathByCaptcha.get_balance` divides every numeric raw
balance by 100; in particular a raw balance of 250 cents normalizes
to 2.5 dollars. -/
theorem dbc_balance_normalized (b : Rat) (errField : Option String) :
    DeathByCaptcha.get_balance (some b) errField = .ok (b / 100) ∧
      DeathByCaptcha.get_balance (some 250) none = .ok (5 / 2) := by
  constructor
  · rfl
  · have h : (250 : Rat) / 100 = 5 / 2 := by norm_num
    simp [DeathByCaptcha.get_balance, h]

/-- Claim C8 (amended): the task-result adapters extract the solution of
a ready response by trying fields in a fixed priority order, AntiCaptcha
with text, then gRecaptchaResponse, then token, DeathByCaptcha with
text, then token, and raise "Unknown solution format" when none is
present; TwoCaptcha instead returns the single `request` field of a
ready response directly, so its absence yields the not-ready sentinel
rather than an error. -/
theorem solution_extraction_priority :
    (∀ s : AntiCaptchaSolution,
        AntiCaptcha.extractSolution s =
          match s.text <|> s.gRecaptchaResponse <|> s.token with
          | some v => .ok v
          | none => .error "Unknown solution format") ∧
      (∀ r : DBCResult, r.is_correct = true →
        DeathByCaptcha.getResult r =
          match r.text <|> r.token with
          | some v => .ok (some v)
          | none => .error "Unknown solution format") ∧
      ∀ d : TwoCaptchaRes, d.status = some 1 →
        TwoCaptcha.getResult d = .ok d.request := by
  refine ⟨?_, ?_, ?_⟩
  · intro s
    obtain ⟨t, g, tk⟩ := s
    cases t <;> cases g <;> cases tk <;> rfl
  · intro r hr
    obtain ⟨ic, t, tk, st, er⟩ := r
    subst hr
    cases t <;> cases tk <;> rfl
  · intro d hd
    obtain ⟨st, rq⟩ := d
    subst hd
    rfl

/-- Witness for C8: the three extraction behaviours at concrete
responses. -/
theorem solution_extraction_priority_witness :
    AntiCaptcha.extractSolution ⟨none, some "g-token", some "tok"⟩ = .ok "g-token" ∧
      (⟨true, none, none, some 0, none⟩ : DBCResult).is_correct = true ∧
      DeathByCaptcha.getResult ⟨true, none, none, some 0, none⟩ =
        .error "Unknown solution format" ∧
      (⟨some 1, some "tok"⟩ : TwoCaptchaRes).status = some 1 ∧
      TwoCaptcha.getResult ⟨some 1, some "tok"⟩ = .ok (some "tok") :=
  ⟨solution_extraction_priority.1 ⟨none, some "g-token", some "tok"⟩,
   rfl,
   solution_extraction_priority.2.1 ⟨true, none, none, some 0, none⟩ rfl,
   rfl,
   solution_extraction_priority.2.2 ⟨some 1, some "tok"⟩ rfl⟩

/-- Counterexample to C8 as stated: a ready TwoCaptcha response
(`status == 1`) with no `request` field does not raise an
unknown-solution-format error; `get_result` returns `None`, the very
value the not-ready branch returns, so the response is retried. -/
theorem twoCaptcha_missing_field_cex :
    TwoCaptcha.getResult ⟨some 1, none⟩ = .ok none ∧
      TwoCaptcha.getResult ⟨none, some "CAPCHA_NOT_READY"⟩ = .ok none :=
  ⟨rfl, rfl⟩

theorem mkSolvers_unrecognized (c : String × String) (configs : List (String × String))
    (hc : configRecognized c = false) :
    mkSolvers (c :: configs) = mkSolvers configs := by
  simp only [configRecognized, Bool.or_eq_false_iff] at hc
  obtain ⟨⟨h1, h2⟩, h3⟩ := hc
  simp [mkSolvers, h1, h2, h3]

theorem mkSolvers_all_unrecognized (configs : List (String × String))
    (h : ∀ c ∈ configs, configRecognized c = false) :
    mkSolvers configs = .ok [] := by
  induction configs with
  | nil => rfl
  | cons c rest ih =>
    rw [mkSolvers_unrecognized c rest (h c (by simp))]
    exact ih fun x hx => h x (by simp [hx])

theorem mkSolvers_wellFormed (configs : List (String × String))
    (hw : ∀ c ∈ configs, credentialWellFormed c = true) :
    ∃ l, mkSolvers configs = .ok l ∧
      ((∃ c ∈ configs, configRecognized c = true) → l ≠ []) := by
  induction configs with
  | nil => exact ⟨[], rfl, by simp⟩
  | cons c rest ih =>
    obtain ⟨l, hl, hne⟩ := ih fun x hx => hw x (by simp [hx])
    cases h1 : pyLower c.1 == "2captcha" with
    | true =>
      exact ⟨ServiceSolver.twoCaptcha c.2 :: l, by simp [mkSolvers, h1, hl, Except.map],
        by simp⟩
    | false =>
    cases h2 : pyLower c.1 == "anti-captcha" with
    | true =>
      exact ⟨ServiceSolver.antiCaptcha c.2 :: l, by simp [mkSolvers, h1, h2, hl, Except.map],
        by simp⟩
    | false =>
    cases h3 : pyLower c.1 == "deathbycaptcha" with
    | true =>
      have hwc := hw c (by simp)
      simp only [credentialWellFormed, h3, Bool.not_true, Bool.false_or] at hwc
      cases hsp : splitCredential c.2 with
      | ok up =>
        obtain ⟨uu, pp⟩ := up
        exact ⟨ServiceSolver.deathByCaptcha uu pp :: l,
          by simp [mkSolvers, h1, h2, h3, hsp, hl, Except.map], by simp⟩
      | error e => rw [hsp] at hwc; simp at hwc
    | false =>
      refine ⟨l, by simp [mkSolvers, h1, h2, h3, hl], ?_⟩
      rintro ⟨x, hx, hrx⟩
      rcases List.mem_cons.mp hx with hxc | hxr
      · subst hxc
        simp [configRecognized, h1, h2, h3] at hrx
      · exact hne ⟨x, hxr, hrx⟩

/-- Claim C6 (amended): construction silently skips unrecognised service
names; a config list with no recognised entry (in particular the
single-entry list with service "bogus") fails with the
no-valid-services error; and construction succeeds whenever at least one
entry is recognised, provided every recognised deathbycaptcha entry has
a credential that splits on ":" into exactly two parts (a colonless
deathbycaptcha key makes construction raise ValueError instead). -/
theorem captchaSolver_init_spec :
    (∀ (c : String × String) (configs : List (String × String)),
        configRecognized c = false →
          CaptchaSolver.init (c :: configs) = CaptchaSolver.init configs) ∧
      (∀ configs : List (String × String),
        (∀ c ∈ configs, configRecognized c = false) →
          CaptchaSolver.init configs = .error "No valid services configured") ∧
      ∀ configs : List (String × String),
        (∀ c ∈ configs, credentialWellFormed c = true) →
        (∃ c ∈ configs, configRecognized c = true) →
          ∃ solvers, CaptchaSolver.init configs = .ok solvers ∧ solvers ≠ [] := by
  refine ⟨?_, ?_, ?_⟩
  · intro c configs hc
    rw [CaptchaSolver.init, CaptchaSolver.init, mkSolvers_unrecognized c configs hc]
  · intro configs h
    rw [CaptchaSolver.init, mkSolvers_all_unrecognized configs h]
    rfl
  · intro configs hw hex
    obtain ⟨l, hl, hne⟩ := mkSolvers_wellFormed configs hw
    have hlne := hne hex
    refine ⟨l, ?_, hlne⟩
    rw [CaptchaSolver.init, hl]
    cases l with
    | nil => exact absurd rfl hlne
    | cons a l => rfl

/-- Witness for C6: "bogus" is skipped, the spec's single-bogus-entry
example fails with the no-valid-services error, and a single 2captcha
entry constructs successfully. -/
theorem captchaSolver_init_spec_witness :
    configRecognized ("bogus", "x") = false ∧
      CaptchaSolver.init [("bogus", "x"), ("2captcha", "k")] =
        CaptchaSolver.init [("2captcha", "k")] ∧
      CaptchaSolver.init [("bogus", "x")] = .error "No valid services configured" ∧
      ∃ solvers, CaptchaSolver.init [("2captcha", "k")] = .ok solvers ∧ solvers ≠ [] :=
  ⟨by decide,
   captchaSolver_init_spec.1 ("bogus", "x") [("2captcha", "k")] (by decide),
   captchaSolver_init_spec.2.1 [("bogus", "x")] (by decide),
   captchaSolver_init_spec.2.2 [("2captcha", "k")] (by decide) (by decide)⟩

/-- Counterexample to C6 as stated: the entry ("deathbycaptcha", "x") is
recognised, yet construction does not succeed — the credential split in
`DeathByCaptcha.__init__` raises ValueError, which propagates out of
`CaptchaSolver.__init__`. -/
theorem init_malformed_dbc_cex :
    CaptchaSolver.init [("deathbycaptcha", "x")] =
      .error "ValueError: not enough values to unpack (expected 2, got 1)" := by
  rfl

theorem get_balances_aux (solvers : List BalanceSolver) :
    ∀ d : List (String × BalanceEntry),
      (∀ s ∈ solvers, ∀ p ∈ d, p.1 ≠ s.className) →
      (solvers.map fun s => s.className).Nodup →
      solvers.foldl (fun d s => dictInsert d s.className (balanceEntry s.balance)) d =
        d ++ solvers.map fun s => (s.className, balanceEntry s.balance) := by
  induction solvers with
  | nil => intro d _ _; simp
  | cons s rest ih =>
    intro d hd hnd
    simp only [List.foldl_cons]
    have hany : d.any (fun p => p.1 == s.className) = false := by
      rw [List.any_eq_false]
      intro p hp
      simpa using hd s (by simp) p hp
    have hins : dictInsert d s.className (balanceEntry s.balance) =
        d ++ [(s.className, balanceEntry s.balance)] := by
      rw [dictInsert, hany]
      rfl
    rw [hins]
    rw [List.map_cons, List.nodup_cons] at hnd
    rw [ih (d ++ [(s.className, balanceEntry s.balance)]) ?_ hnd.2]
    · simp
    · intro s2 hs2 p hp
      rcases List.mem_append.mp hp with hpd | hpe
      · exact hd s2 (by simp [hs2]) p hpd
      · have hps : p = (s.className, balanceEntry s.balance) := by simpa using hpe
        subst hps
        intro hcontra
        apply hnd.1
        have hcs : s.className = s2.className := hcontra
        rw [hcs]
        exact List.mem_map_of_mem (fun x => x.className) hs2

/-- Claim C7 (amended): `get_balances` queries every adapter and never
raises; for a registry whose adapters have pairwise distinct
implementation class names, the returned dict has one entry per
adapter, keyed by class name, holding the numeric balance for a
succeeding adapter and the "Error: ..." marker for a failing one.
(For duplicate class names, later entries overwrite earlier ones.) -/
theorem get_balances_distinct (solvers : List BalanceSolver)
    (h : (solvers.map fun s => s.className).Nodup) :
    get_balances solvers =
      solvers.map fun s => (s.className, balanceEntry s.balance) := by
  have haux := get_balances_aux solvers [] (by simp) h
  simpa [get_balances] using haux

/-- Witness for C7: three adapters of the three distinct classes, the
middle one failing: three entries, one error marker, two numeric. -/
theorem get_balances_distinct_witness :
    (([⟨"TwoCaptcha", .ok 3⟩, ⟨"AntiCaptcha", .error "boom"⟩,
        ⟨"DeathByCaptcha", .ok 7⟩] : List BalanceSolver).map
          fun s => s.className).Nodup ∧
      get_balances
          [⟨"TwoCaptcha", .ok 3⟩, ⟨"AntiCaptcha", .error "boom"⟩,
            ⟨"DeathByCaptcha", .ok 7⟩] =
        [("TwoCaptcha", .val 3), ("AntiCaptcha", .err "Error: boom"),
          ("DeathByCaptcha", .val 7)] ∧
      (get_balances
          [⟨"TwoCaptcha", .ok 3⟩, ⟨"AntiCaptcha", .error "boom"⟩,
            ⟨"DeathByCaptcha", .ok 7⟩]).length = 3 :=
  ⟨by decide,
   (get_balances_distinct
      [⟨"TwoCaptcha", .ok 3⟩, ⟨"AntiCaptcha", .error "boom"⟩,
        ⟨"DeathByCaptcha", .ok 7⟩] (by decide)).trans rfl,
   rfl⟩

/-- Counterexample to C7 as stated: three adapters of the same
implementation class where exactly one throws.  The dict is keyed by
`__class__.__name__`, so the three entries collapse into one, the error
marker is overwritten, and the mapping does not have 3 entries. -/
theorem get_balances_dup_cex :
    get_balances
        [⟨"TwoCaptcha", .error "invalid key"⟩, ⟨"TwoCaptcha", .ok 3⟩,
          ⟨"TwoCaptcha", .ok 4⟩] =
      [("TwoCaptcha", .val 4)] := by
  rfl
